import Mathlib

/-!
Verification development for the engagement feature pipeline and
cluster-assignment engine of the xenty-mvp repository
(`utils/pipeline.py`, its callers in the Streamlit pages, and the static
cluster taxonomy in `utils/clusters.py`).

The Python code is shallowly embedded: dynamically typed dictionary values
become the inductive `PyVal`, Python dictionaries (which preserve insertion
order) become association lists, `int(...)` coercion becomes a partial
parser returning `Option Int`, exceptions caught by `try/except` blocks
become `Option`-valued branches, and float division becomes exact division
on `ℚ`.  The fitted scaler and k-means artifacts are opaque function-valued
records, since inference only ever calls `transform` and `predict` on them.
-/

/-- A dynamically typed value that may sit in a tweet-record field:
Python `None`, a string, or an integer. -/
inductive PyVal where
  | pynone : PyVal
  | pystr : String → PyVal
  | pyint : Int → PyVal
deriving DecidableEq, Repr

/-- Python truthiness of `d.get(key)`: an absent key gives `None` (falsy);
`None`, the empty string and the integer `0` are falsy; every other string
or integer is truthy. -/
def pyTruthy : Option PyVal → Bool
  | Option.none => false
  | some PyVal.pynone => false
  | some (PyVal.pystr s) => decide (s ≠ "")
  | some (PyVal.pyint n) => decide (n ≠ 0)

/-- Value of a nonempty all-digit character run. -/
def digitsVal : List Char → Option Nat
  | [] => Option.none
  | cs =>
    if cs.all Char.isDigit then
      some (cs.foldl (fun a c => a * 10 + (c.toNat - 48)) 0)
    else Option.none

/-- ASCII whitespace, as stripped by Python's `int` on string input. -/
def isSpaceChar (c : Char) : Bool :=
  c = ' ' || c = '\t' || c = '\n' || c = '\r'

/-- Strip leading and trailing whitespace from a character list. -/
def trimChars (cs : List Char) : List Char :=
  ((cs.dropWhile isSpaceChar).reverse.dropWhile isSpaceChar).reverse

/-- Python `int(s)` on a string: surrounding whitespace is ignored, an
optional single sign precedes a nonempty digit run; anything else raises
`ValueError`, modelled as `Option.none`. -/
def pyIntOfStr (s : String) : Option Int :=
  match trimChars s.data with
  | '+' :: rest => (digitsVal rest).map (fun n => (n : Int))
  | '-' :: rest => (digitsVal rest).map (fun n => -(n : Int))
  | cs => (digitsVal cs).map (fun n => (n : Int))

/-- Python `int(v)` on a dynamic value: integers pass through, strings are
parsed, `None` raises `TypeError` (modelled as `Option.none`). -/
def pyInt : PyVal → Option Int
  | PyVal.pynone => Option.none
  | PyVal.pystr s => pyIntOfStr s
  | PyVal.pyint n => some n

/-- The counter-coercion idiom used throughout `pipeline.py`:
`int(d.get(k, 0)) if d.get(k) else 0`.  A falsy or absent value yields `0`;
a truthy value is coerced with `int`, whose failure (`ValueError` /
`TypeError`) propagates as `Option.none`. -/
def coerceCounter (v : Option PyVal) : Option Int :=
  if pyTruthy v then
    match v with
    | some x => pyInt x
    | Option.none => some 0
  else some 0

/-- One raw tweet record as stored in the posts mapping: every field may be
absent (`Option.none`) or hold any dynamic value. -/
structure TweetInfo where
  full_text : Option PyVal := Option.none
  views_count : Option PyVal := Option.none
  likes_count : Option PyVal := Option.none
  retweet_count : Option PyVal := Option.none
  reply_count : Option PyVal := Option.none
deriving DecidableEq, Repr

/-- The four-counter coercion block shared by `filter_valid_tweets` and
`calculate_engagement_features` (`views`, `likes`, `retweets`, `replies`).
If any of the four coercions raises, the whole block fails and the caller
skips the tweet (`except (ValueError, TypeError): continue`). -/
def tweetCounters (t : TweetInfo) : Option (Int × Int × Int × Int) :=
  match coerceCounter t.views_count, coerceCounter t.likes_count,
        coerceCounter t.retweet_count, coerceCounter t.reply_count with
  | some v, some l, some r, some p => some (v, l, r, p)
  | _, _, _, _ => Option.none

/-- `tweet_info.get('full_text', '')`: an absent key defaults to the empty
string, a present value is returned as is. -/
def fullTextVal (t : TweetInfo) : PyVal :=
  match t.full_text with
  | Option.none => PyVal.pystr ""
  | some v => v

/-- Substring containment on character lists. -/
def listHasSub (needle : List Char) : List Char → Bool
  | [] => needle.isEmpty
  | c :: rest => needle.isPrefixOf (c :: rest) || listHasSub needle rest

/-- `needle in hay` for strings (case-sensitive substring test). -/
def strHasSub (hay needle : String) : Bool :=
  listHasSub needle.data hay.data

/-- `'RT @' in tweet_info.get('full_text', '')`: defined when the value is
a string; on a non-string value Python raises `TypeError`, modelled as
`Option.none` (caught by the enclosing `except`, which drops the tweet). -/
def rtCheck (t : TweetInfo) : Option Bool :=
  match fullTextVal t with
  | PyVal.pystr s => some (strHasSub s "RT @")
  | _ => Option.none

/-- The per-tweet validity policy of `filter_valid_tweets`: drop the tweet
when the retweet check raises, when the body contains `"RT @"`, when the
counter block raises, when `views == 0` with some interaction counter
positive, or when all four counters are `0`; keep it otherwise. -/
def keepTweet (t : TweetInfo) : Bool :=
  match rtCheck t with
  | Option.none => false
  | some true => false
  | some false =>
    match tweetCounters t with
    | Option.none => false
    | some (v, l, r, p) =>
      if v = 0 ∧ (l > 0 ∨ r > 0 ∨ p > 0) then false
      else if v = 0 ∧ l = 0 ∧ r = 0 ∧ p = 0 then false
      else true

/-- `filter_valid_tweets`: keep exactly the entries whose record passes the
policy, preserving insertion order and binding each retained id to its
original record. -/
def filter_valid_tweets (tweets : List (String × TweetInfo)) :
    List (String × TweetInfo) :=
  tweets.filter (fun kv => keepTweet kv.2)

/-- Running totals of the aggregation loop in
`calculate_engagement_features`. -/
structure Totals where
  views : Int
  likes : Int
  retweets : Int
  replies : Int
  count : Nat
deriving DecidableEq, Repr

/-- One iteration of the aggregation loop: a tweet whose counter block
raises is skipped; a tweet with `views > 0` adds its four counters to the
totals and bumps `valid_tweets_count`; any other tweet is ignored. -/
def stepTweet (acc : Totals) (t : TweetInfo) : Totals :=
  match tweetCounters t with
  | Option.none => acc
  | some (v, l, r, p) =>
    if v > 0 then
      { views := acc.views + v, likes := acc.likes + l,
        retweets := acc.retweets + r, replies := acc.replies + p,
        count := acc.count + 1 }
    else acc

/-- The totals accumulated by `calculate_engagement_features` over the
whole posts mapping, starting from all-zero totals. -/
def aggregateTotals (tweets : List (String × TweetInfo)) : Totals :=
  tweets.foldl (fun acc kv => stepTweet acc kv.2) ⟨0, 0, 0, 0, 0⟩

/-- The single aggregated feature row produced by
`calculate_engagement_features`: three view-normalized ratios, the four
raw totals and the number of contributing tweets. -/
structure EngagementFeatures where
  likes_per_views : ℚ
  retweets_per_views : ℚ
  replies_per_views : ℚ
  total_views : Int
  total_likes : Int
  total_retweets : Int
  total_replies : Int
  valid_tweets_count : Nat
deriving DecidableEq, Repr

/-- The feature row of `calculate_engagement_features`: when
`total_views > 0` each ratio is the corresponding total divided by total
views, otherwise every ratio is `0`. -/
def featuresRow (tweets : List (String × TweetInfo)) : EngagementFeatures :=
  let tot := aggregateTotals tweets
  if tot.views > 0 then
    { likes_per_views := (tot.likes : ℚ) / (tot.views : ℚ),
      retweets_per_views := (tot.retweets : ℚ) / (tot.views : ℚ),
      replies_per_views := (tot.replies : ℚ) / (tot.views : ℚ),
      total_views := tot.views, total_likes := tot.likes,
      total_retweets := tot.retweets, total_replies := tot.replies,
      valid_tweets_count := tot.count }
  else
    { likes_per_views := 0, retweets_per_views := 0, replies_per_views := 0,
      total_views := tot.views, total_likes := tot.likes,
      total_retweets := tot.retweets, total_replies := tot.replies,
      valid_tweets_count := tot.count }

/-- `calculate_engagement_features` returns `pd.DataFrame([{...}])`, a
DataFrame holding exactly the one aggregated row; the DataFrame is
modelled as the list of its rows. -/
def calculate_engagement_features (tweets : List (String × TweetInfo)) :
    List EngagementFeatures :=
  [featuresRow tweets]

/-- The fitted feature-scaling artifact (`scaler.joblib`): inference only
calls `transform` on the three-ratio row, so it is modelled as that
function. -/
structure Scaler where
  transform : ℚ × ℚ × ℚ → ℚ × ℚ × ℚ

/-- The fitted partition-model artifact (`kmeans.joblib`): inference only
calls `predict` on the scaled row, so it is modelled as that function. -/
structure KMeansModel where
  predict : ℚ × ℚ × ℚ → Nat

/-- The on-disk model directory: each artifact file is present
(deserializing to its artifact) or absent. -/
structure ModelDir where
  scaler_file : Option Scaler
  kmeans_file : Option KMeansModel

/-- The mutable artifact slots of an `EngagementKMeansPredictor` instance,
both `None` at construction. -/
structure Predictor where
  scaler : Option Scaler
  kmeans_model : Option KMeansModel

/-- A freshly constructed predictor: both artifact slots empty. -/
def freshPredictor : Predictor :=
  { scaler := Option.none, kmeans_model := Option.none }

/-- `load_models`: succeeds only when both artifact files exist, in which
case both slots of the instance are filled; on failure the instance is
left unchanged and `False` is returned. -/
def load_models (dir : ModelDir) (p : Predictor) : Bool × Predictor :=
  match dir.scaler_file, dir.kmeans_file with
  | some s, some k => (true, { scaler := some s, kmeans_model := some k })
  | _, _ => (false, p)

/-- The cluster-label mapping built in the predictor's constructor from
`engagement_clusters_4` (`utils/clusters.py`); `pandas` `.map` yields a
missing value for ids outside the table. -/
def cluster_label_of : Nat → Option String
  | 0 => some "Engagement Équilibré"
  | 1 => some "Forte Attraction"
  | 2 => some "Faible Engagement"
  | 3 => some "Haute Viralité"
  | _ => Option.none

/-- One output row of `predict_engagement_clusters`: the feature row
extended with the predicted cluster id and its mapped label. -/
structure ClusterRow extends EngagementFeatures where
  cluster : Nat
  cluster_label : Option String
deriving DecidableEq, Repr

/-- The body of `predict_engagement_clusters` after the artifacts are
available: compute the feature table, return `None` if it is empty,
otherwise scale the three ratio columns, predict a cluster per row and
attach the mapped labels. -/
def predictLoaded (p : Predictor) (tweets : List (String × TweetInfo)) :
    Option (List ClusterRow) :=
  match p.scaler, p.kmeans_model with
  | some sc, some km =>
    let df := calculate_engagement_features tweets
    if df.isEmpty then Option.none
    else
      some (df.map (fun f =>
        let scaled := sc.transform
          (f.likes_per_views, f.retweets_per_views, f.replies_per_views)
        let c := km.predict scaled
        { toEngagementFeatures := f, cluster := c,
          cluster_label := cluster_label_of c }))
  | _, _ => Option.none

/-- `predict_engagement_clusters` with the disk contents made explicit:
returns the optional result table, the instance state after the call, and
the number of artifact loads from disk the call performed. -/
def predict_engagement_clusters (dir : ModelDir) (p : Predictor)
    (tweets : List (String × TweetInfo)) :
    Option (List ClusterRow) × Predictor × Nat :=
  if p.scaler.isNone || p.kmeans_model.isNone then
    match load_models dir p with
    | (true, p1) => (predictLoaded p1 tweets, p1, 1)
    | (false, p1) => (Option.none, p1, 1)
  else (predictLoaded p tweets, p, 0)

/-- Modelled from the spec: the summary object returned by the predictor's
`get_account_engagement_summary`, which the ML prediction page invokes
(`summary['total_tweets']`, `summary['total_views']`, `summary['total_likes']`,
`summary['avg_likes_per_views']`, `summary['avg_retweets_per_views']`,
`summary['avg_replies_per_views']`, `summary['cluster_distribution']`,
`summary['dominant_cluster']`) but whose definition is absent from the
pipeline module; per the spec it carries the total post count, the sums of
each raw counter, the mean of each ratio, the label-occurrence
distribution and the dominant cluster. -/
structure AccountSummary where
  total_tweets : Nat
  total_views : Int
  total_likes : Int
  total_retweets : Int
  total_replies : Int
  avg_likes_per_views : ℚ
  avg_retweets_per_views : ℚ
  avg_replies_per_views : ℚ
  cluster_distribution : List (String × Nat)
  dominant_cluster : Option String
deriving DecidableEq, Repr

/-- Occurrence count of one cluster label among the assignment rows. -/
def countLabel (l : String) (rows : List ClusterRow) : Nat :=
  (rows.filter (fun r => r.cluster_label = some l)).length

/-- The distinct cluster labels of the assignment rows in order of first
appearance (the frequency table's underlying order). -/
def distinctLabels (rows : List ClusterRow) : List String :=
  rows.foldl (fun acc r =>
    match r.cluster_label with
    | some l => if acc.contains l then acc else acc ++ [l]
    | Option.none => acc) []

/-- The most frequent entry of the distribution, earlier entries winning
ties (the implementation-defined stable tie-break of the frequency
table). -/
def dominantOf (dist : List (String × Nat)) : Option String :=
  (dist.foldl (fun best x =>
    match best with
    | Option.none => some x
    | some b => if x.2 > b.2 then some x else some b) Option.none).map
    Prod.fst

/-- Modelled from the spec: `get_account_engagement_summary`, the Summary
Builder invoked by the ML prediction page on the predictor but not defined
in the pipeline module.  Per the spec it computes the total post count,
the sums of each raw counter, the mean of each ratio, the mapping from
cluster label to occurrence count, and the dominant (most frequent)
cluster; on empty input it returns the neutral summary rather than
failing. -/
def get_account_engagement_summary (rows : List ClusterRow) :
    AccountSummary :=
  let n := rows.length
  let dist := (distinctLabels rows).map (fun l => (l, countLabel l rows))
  { total_tweets := n
    total_views := (rows.map (fun r => r.total_views)).sum
    total_likes := (rows.map (fun r => r.total_likes)).sum
    total_retweets := (rows.map (fun r => r.total_retweets)).sum
    total_replies := (rows.map (fun r => r.total_replies)).sum
    avg_likes_per_views :=
      if n = 0 then 0 else (rows.map (fun r => r.likes_per_views)).sum / n
    avg_retweets_per_views :=
      if n = 0 then 0
      else (rows.map (fun r => r.retweets_per_views)).sum / n
    avg_replies_per_views :=
      if n = 0 then 0
      else (rows.map (fun r => r.replies_per_views)).sum / n
    cluster_distribution := dist
    dominant_cluster := dominantOf dist }

/-- A tweet whose `views_count` holds the non-numeric string `"abc"`. -/
def tweetAbcViews : TweetInfo :=
  { full_text := some (PyVal.pystr "hello"),
    views_count := some (PyVal.pystr "abc"),
    likes_count := some (PyVal.pystr "5"),
    retweet_count := some (PyVal.pystr "0"),
    reply_count := some (PyVal.pystr "0") }

/-- A tweet with numeric views but a non-numeric `likes_count` string. -/
def tweetAbcLikes : TweetInfo :=
  { full_text := some (PyVal.pystr "hello"),
    views_count := some (PyVal.pystr "10"),
    likes_count := some (PyVal.pystr "abc"),
    retweet_count := some (PyVal.pystr "0"),
    reply_count := some (PyVal.pystr "0") }

/-- A tweet with zero views and a negative `likes_count`. -/
def tweetNegLikes : TweetInfo :=
  { full_text := some (PyVal.pystr "hello"),
    views_count := some (PyVal.pystr "0"),
    likes_count := some (PyVal.pystr "-1"),
    retweet_count := some (PyVal.pystr "0"),
    reply_count := some (PyVal.pystr "0") }

/-- The spec's worked example: zero views with five likes
(`{views_count:"0", likes_count:"5", ...}`). -/
def tweetZeroViews : TweetInfo :=
  { full_text := some (PyVal.pystr "hello"),
    views_count := some (PyVal.pystr "0"),
    likes_count := some (PyVal.pystr "5"),
    retweet_count := some (PyVal.pystr "0"),
    reply_count := some (PyVal.pystr "0") }

/-- A repost with large counters: body `"RT @alice: gm"`, views 1000,
likes 500. -/
def tweetRT : TweetInfo :=
  { full_text := some (PyVal.pystr "RT @alice: gm"),
    views_count := some (PyVal.pyint 1000),
    likes_count := some (PyVal.pyint 500),
    retweet_count := some (PyVal.pyint 0),
    reply_count := some (PyVal.pyint 0) }

/-- First example post of the aggregated-mode example:
(views=100, likes=10, retweets=5, replies=2). -/
def tweetEx1 : TweetInfo :=
  { full_text := some (PyVal.pystr "first post"),
    views_count := some (PyVal.pyint 100),
    likes_count := some (PyVal.pyint 10),
    retweet_count := some (PyVal.pyint 5),
    reply_count := some (PyVal.pyint 2) }

/-- Second example post of the aggregated-mode example:
(views=50, likes=1, retweets=0, replies=1). -/
def tweetEx2 : TweetInfo :=
  { full_text := some (PyVal.pystr "second post"),
    views_count := some (PyVal.pyint 50),
    likes_count := some (PyVal.pyint 1),
    retweet_count := some (PyVal.pyint 0),
    reply_count := some (PyVal.pyint 1) }

/-- A model directory holding trivial but well-formed artifacts: the
identity scaling transform and a partition model sending every row to
cluster 0. -/
def demoDir : ModelDir :=
  { scaler_file := some { transform := fun x => x },
    kmeans_file := some { predict := fun _ => 0 } }

/-- A model directory from which both artifact files are missing. -/
def emptyDir : ModelDir :=
  { scaler_file := Option.none, kmeans_file := Option.none }

example : coerceCounter (some (PyVal.pystr "12")) = some 12 := by decide
example : coerceCounter (some (PyVal.pystr "abc")) = Option.none := by decide
example : coerceCounter (some (PyVal.pystr "")) = some 0 := by decide
example : coerceCounter Option.none = some 0 := by decide
example : coerceCounter (some PyVal.pynone) = some 0 := by decide
example : coerceCounter (some (PyVal.pystr "-5")) = some (-5) := by decide
example : strHasSub "RT @alice: gm" "RT @" = true := by decide
example : strHasSub "hello RT @bob" "RT @" = true := by decide
example : strHasSub "hello" "RT @" = false := by decide


/-- A tweet whose counter block raises is dropped by the filter policy,
whatever its body text. -/
theorem keepTweet_of_counters_failure (t : TweetInfo)
    (h : tweetCounters t = Option.none) : keepTweet t = false := by
  unfold keepTweet
  cases hrt : rtCheck t with
  | none => rfl
  | some b =>
    cases b with
    | false => rw [h]
    | true => rfl

/-- With both artifact slots filled, the body of
`predict_engagement_clusters` always yields a (single-row) result table:
the feature table is never empty. -/
theorem predictLoaded_eq_some (sc : Scaler) (km : KMeansModel)
    (tweets : List (String × TweetInfo)) :
    predictLoaded { scaler := some sc, kmeans_model := some km } tweets =
      some ((calculate_engagement_features tweets).map (fun f =>
        let scaled := sc.transform
          (f.likes_per_views, f.retweets_per_views, f.replies_per_views)
        let c := km.predict scaled
        { toEngagementFeatures := f, cluster := c,
          cluster_label := cluster_label_of c })) := by
  simp [predictLoaded, calculate_engagement_features]

/-- A call on an instance whose two artifact slots are already filled
performs no disk load and leaves the instance unchanged. -/
theorem predict_no_reload (dir : ModelDir) (q : Predictor)
    (tweets : List (String × TweetInfo))
    (hs : q.scaler.isSome = true) (hk : q.kmeans_model.isSome = true) :
    predict_engagement_clusters dir q tweets =
      (predictLoaded q tweets, q, 0) := by
  unfold predict_engagement_clusters
  have h : (q.scaler.isNone || q.kmeans_model.isNone) = false := by
    rcases q with ⟨qs, qk⟩
    cases qs <;> cases qk <;> simp_all
  rw [h]
  rfl

/-- A successful `load_models` fills both slots of the instance. -/
theorem load_models_true (dir : ModelDir) (p q : Predictor)
    (h : load_models dir p = (true, q)) :
    q.scaler.isSome = true ∧ q.kmeans_model.isSome = true := by
  rcases dir with ⟨ds, dk⟩
  cases ds with
  | none => cases dk <;> simp [load_models] at h
  | some s =>
    cases dk with
    | none => simp [load_models] at h
    | some k =>
      simp only [load_models] at h
      injection h with h1 h2
      subst h2
      exact ⟨rfl, rfl⟩

/-- One aggregation step preserves non-negativity of the views total and
the fact that a zero views total forces a zero contributing count. -/
theorem stepTweet_inv (acc : Totals) (t : TweetInfo)
    (h0 : 0 ≤ acc.views) (h1 : acc.views = 0 → acc.count = 0) :
    0 ≤ (stepTweet acc t).views ∧
      ((stepTweet acc t).views = 0 → (stepTweet acc t).count = 0) := by
  cases hc : tweetCounters t with
  | none =>
    simp only [stepTweet, hc]
    exact ⟨h0, h1⟩
  | some x =>
    obtain ⟨v, l, r, p⟩ := x
    by_cases hv : v > 0
    · simp only [stepTweet, hc, if_pos hv]
      constructor
      · omega
      · intro hz
        omega
    · simp only [stepTweet, hc, if_neg hv]
      exact ⟨h0, h1⟩

/-- The aggregation loop keeps the views total non-negative, and a zero
views total forces a zero contributing count. -/
theorem aggregate_loop_inv :
    ∀ (l : List (String × TweetInfo)) (acc : Totals),
      0 ≤ acc.views → (acc.views = 0 → acc.count = 0) →
      0 ≤ (l.foldl (fun a kv => stepTweet a kv.2) acc).views ∧
        ((l.foldl (fun a kv => stepTweet a kv.2) acc).views = 0 →
          (l.foldl (fun a kv => stepTweet a kv.2) acc).count = 0)
  | [], _, h0, h1 => ⟨h0, h1⟩
  | kv :: rest, acc, h0, h1 => by
    have h := stepTweet_inv acc kv.2 h0 h1
    simpa using aggregate_loop_inv rest (stepTweet acc kv.2) h.1 h.2

/-- Specialization of the loop invariant to the all-zero initial totals of
`calculate_engagement_features`. -/
theorem aggregateTotals_inv (tweets : List (String × TweetInfo)) :
    0 ≤ (aggregateTotals tweets).views ∧
      ((aggregateTotals tweets).views = 0 →
        (aggregateTotals tweets).count = 0) :=
  aggregate_loop_inv tweets ⟨0, 0, 0, 0, 0⟩ le_rfl (fun _ => rfl)

/-- The reported views total of the feature row is the accumulated views
total, in both branches of the ratio guard. -/
theorem featuresRow_total_views (tweets : List (String × TweetInfo)) :
    (featuresRow tweets).total_views = (aggregateTotals tweets).views := by
  simp only [featuresRow]
  split <;> rfl

/-- The reported contributing count of the feature row is the accumulated
count, in both branches of the ratio guard. -/
theorem featuresRow_count (tweets : List (String × TweetInfo)) :
    (featuresRow tweets).valid_tweets_count = (aggregateTotals tweets).count := by
  simp only [featuresRow]
  split <;> rfl

/-- When the accumulated views total is not positive, the guarded division
is not taken and all three ratios are `0`. -/
theorem featuresRow_ratios_zero (tweets : List (String × TweetInfo))
    (h : ¬ (aggregateTotals tweets).views > 0) :
    (featuresRow tweets).likes_per_views = 0 ∧
      (featuresRow tweets).retweets_per_views = 0 ∧
      (featuresRow tweets).replies_per_views = 0 := by
  simp only [featuresRow]
  rw [if_neg h]
  exact ⟨rfl, rfl, rfl⟩

/-- A tweet the filter keeps triggers neither counter-based exclusion rule:
not (zero views with a positive interaction), and not all-zero counters. -/
theorem keepTweet_true_conditions (t : TweetInfo) (v l r p : Int)
    (hc : tweetCounters t = some (v, l, r, p)) (hk : keepTweet t = true) :
    ¬(v = 0 ∧ (l > 0 ∨ r > 0 ∨ p > 0)) ∧
      ¬(v = 0 ∧ l = 0 ∧ r = 0 ∧ p = 0) := by
  cases hrt : rtCheck t with
  | none => simp [keepTweet, hrt] at hk
  | some b =>
    cases b with
    | true => simp [keepTweet, hrt] at hk
    | false =>
      simp only [keepTweet, hrt, hc] at hk
      split_ifs at hk with h1 h2
      exact ⟨h1, h2⟩

/-- Claim C1, counterexample: a raw post whose `views_count` is the
non-numeric string `"abc"` is not normalized to `views == 0`; the coercion
block fails (`ValueError` caught) and the post is rejected right there, in
both `filter_valid_tweets` and the aggregation loop of
`calculate_engagement_features` — and a post with good views but a
non-numeric `likes_count` is likewise dropped, where per-counter zero
defaulting would have kept it. -/
theorem c1_counterexample :
    coerceCounter (some (PyVal.pystr "abc")) = Option.none ∧
    tweetCounters tweetAbcViews = Option.none ∧
    filter_valid_tweets [("1", tweetAbcViews)] = [] ∧
    filter_valid_tweets [("1", tweetAbcLikes)] = [] ∧
    stepTweet ⟨0, 0, 0, 0, 0⟩ tweetAbcViews = ⟨0, 0, 0, 0, 0⟩ := by
  decide

/-- Claim C1, amended: the counter-coercion block defaults a counter to 0
only for falsy values (absent key, `None`, empty string); a non-numeric
non-empty counter string makes the whole coercion block fail, and the post
is skipped at this stage by both `filter_valid_tweets` and
`calculate_engagement_features` rather than passed on with that counter
zeroed. -/
theorem c1_amended_nonnumeric_skips_post (t : TweetInfo) (s : String)
    (acc : Totals)
    (hv : t.views_count = some (PyVal.pystr s)) (hne : s ≠ "")
    (hbad : pyIntOfStr s = Option.none) :
    tweetCounters t = Option.none ∧ keepTweet t = false ∧
      stepTweet acc t = acc ∧
      coerceCounter Option.none = some 0 ∧
      coerceCounter (some PyVal.pynone) = some 0 ∧
      coerceCounter (some (PyVal.pystr "")) = some 0 := by
  have hcc : coerceCounter t.views_count = Option.none := by
    rw [hv]
    simp [coerceCounter, pyTruthy, hne, pyInt, hbad]
  have hct : tweetCounters t = Option.none := by
    unfold tweetCounters
    rw [hcc]
  refine ⟨hct, keepTweet_of_counters_failure t hct, ?_, by decide, by decide,
    by decide⟩
  simp only [stepTweet, hct]

/-- Claim C1, witness: the amended statement instantiated at the concrete
record whose `views_count` is `"abc"`. -/
theorem c1_witness :
    tweetCounters tweetAbcViews = Option.none ∧
      keepTweet tweetAbcViews = false ∧
      stepTweet ⟨0, 0, 0, 0, 0⟩ tweetAbcViews = ⟨0, 0, 0, 0, 0⟩ ∧
      coerceCounter Option.none = some 0 ∧
      coerceCounter (some PyVal.pynone) = some 0 ∧
      coerceCounter (some (PyVal.pystr "")) = some 0 :=
  c1_amended_nonnumeric_skips_post tweetAbcViews "abc" ⟨0, 0, 0, 0, 0⟩ rfl
    (by decide) (by decide)

/-- Claim C4: `calculate_engagement_features` is total on every input
mapping and always returns a table of exactly one row (the aggregated
feature row); it never returns an empty table. -/
theorem c4_features_always_one_row (tweets : List (String × TweetInfo)) :
    calculate_engagement_features tweets = [featuresRow tweets] ∧
      (calculate_engagement_features tweets).length = 1 :=
  ⟨rfl, rfl⟩

/-- Claim C5, counterexample: the record with `views_count = "0"` and
`likes_count = "-1"` is retained by `filter_valid_tweets` although its
normalized views counter is 0 — neither exclusion rule fires because no
interaction counter is positive and not all counters are zero. -/
theorem c5_counterexample :
    filter_valid_tweets [("1", tweetNegLikes)] = [("1", tweetNegLikes)] ∧
      coerceCounter tweetNegLikes.views_count = some 0 := by
  decide

/-- Claim C5, amended: a post with `views == 0` and a positive interaction
counter is excluded, and an all-zero-counter post is excluded; provided
all three interaction counters are non-negative (and views is
non-negative), every post retained by `filter_valid_tweets` has
`views > 0`. -/
theorem c5_amended_zero_view_exclusions
    (tweets : List (String × TweetInfo)) (id : String) (t : TweetInfo)
    (v l r p : Int) (hc : tweetCounters t = some (v, l, r, p)) :
    (v = 0 ∧ (l > 0 ∨ r > 0 ∨ p > 0) → keepTweet t = false) ∧
    (v = 0 ∧ l = 0 ∧ r = 0 ∧ p = 0 → keepTweet t = false) ∧
    (0 ≤ v → 0 ≤ l → 0 ≤ r → 0 ≤ p →
      (id, t) ∈ filter_valid_tweets tweets → 0 < v) := by
  refine ⟨?_, ?_, ?_⟩
  · intro h1
    cases hk : keepTweet t with
    | false => rfl
    | true => exact absurd h1 (keepTweet_true_conditions t v l r p hc hk).1
  · intro h2
    cases hk : keepTweet t with
    | false => rfl
    | true => exact absurd h2 (keepTweet_true_conditions t v l r p hc hk).2
  · intro hv hl hr hp hmem
    simp only [filter_valid_tweets] at hmem
    have hk : keepTweet t = true := by
      simpa using (List.mem_filter.mp hmem).2
    obtain ⟨h1, h2⟩ := keepTweet_true_conditions t v l r p hc hk
    omega

/-- Claim C5, witness: the amended statement instantiated at the spec's
zero-views/five-likes example (rule-2 exclusion) and at a retained post
with positive views. -/
theorem c5_witness :
    keepTweet tweetZeroViews = false ∧ (0 : Int) < 100 :=
  ⟨(c5_amended_zero_view_exclusions [] "1" tweetZeroViews 0 5 0 0
      (by decide)).1 ⟨rfl, Or.inl (by decide)⟩,
   (c5_amended_zero_view_exclusions [("1", tweetEx1)] "1" tweetEx1 100 10 5 2
      (by decide)).2.2 (by decide) (by decide) (by decide) (by decide)
      (by decide)⟩

/-- Claim C6: a post whose body contains the substring `"RT @"` anywhere
is excluded by `filter_valid_tweets` regardless of its counters. -/
theorem c6_reshare_marker_excluded (tweets : List (String × TweetInfo))
    (id : String) (t : TweetInfo) (s : String)
    (hft : t.full_text = some (PyVal.pystr s))
    (hsub : strHasSub s "RT @" = true) :
    (id, t) ∉ filter_valid_tweets tweets := by
  intro hmem
  simp only [filter_valid_tweets] at hmem
  have hk : keepTweet t = true := by
    simpa using (List.mem_filter.mp hmem).2
  have hrt : rtCheck t = some true := by
    simp [rtCheck, fullTextVal, hft, hsub]
  simp [keepTweet, hrt] at hk

/-- Claim C6, witness: the post with body `"RT @alice: gm"`, views 1000
and likes 500 is excluded. -/
theorem c6_witness :
    ("1", tweetRT) ∉ filter_valid_tweets [("1", tweetRT)] :=
  c6_reshare_marker_excluded [("1", tweetRT)] "1" tweetRT "RT @alice: gm"
    rfl (by decide)

/-- Claim C7: in aggregated mode the two example posts
(views=100, likes=10, retweets=5, replies=2) and
(views=50, likes=1, retweets=0, replies=1) yield totals
views=150, likes=11, retweets=5, replies=3, the exact ratios
11/150, 5/150 = 1/30, 3/150 = 1/50, and valid_tweets_count = 2. -/
theorem c7_aggregated_example :
    calculate_engagement_features [("1", tweetEx1), ("2", tweetEx2)] =
      [{ likes_per_views := 11/150, retweets_per_views := 1/30,
         replies_per_views := 1/50, total_views := 150, total_likes := 11,
         total_retweets := 5, total_replies := 3,
         valid_tweets_count := 2 }] := by
  have h : aggregateTotals [("1", tweetEx1), ("2", tweetEx2)] =
      ⟨150, 11, 5, 3, 2⟩ := by decide
  simp [calculate_engagement_features, featuresRow, h]
  norm_num

/-- Claim C10: `filter_valid_tweets` returns a sub-mapping of its input —
a sublist of the input entries (hence original order and unmodified
records, with no new keys), containing exactly the entries whose record
passes the policy; an entry whose evaluation fails is dropped alone and
never aborts the rest of the batch. -/
theorem c10_filter_sub_mapping (tweets : List (String × TweetInfo)) :
    List.Sublist (filter_valid_tweets tweets) tweets ∧
    (∀ kv, kv ∈ filter_valid_tweets tweets →
      kv ∈ tweets ∧ keepTweet kv.2 = true) ∧
    (∀ kv, kv ∈ tweets → keepTweet kv.2 = true →
      kv ∈ filter_valid_tweets tweets) := by
  refine ⟨?_, ?_, ?_⟩
  · exact List.filter_sublist tweets
  · intro kv h
    simp only [filter_valid_tweets] at h
    have h2 := List.mem_filter.mp h
    exact ⟨h2.1, by simpa using h2.2⟩
  · intro kv h1 h2
    simp only [filter_valid_tweets]
    exact List.mem_filter.mpr ⟨h1, by simpa using h2⟩

/-- Claim C10, witness: in a batch holding a reshare, a valid post and a
post with a malformed counter, the valid post is retained while the other
two are dropped without aborting the batch. -/
theorem c10_witness :
    ("2", tweetEx1) ∈
      filter_valid_tweets
        [("1", tweetRT), ("2", tweetEx1), ("3", tweetAbcViews)] :=
  (c10_filter_sub_mapping
      [("1", tweetRT), ("2", tweetEx1), ("3", tweetAbcViews)]).2.2
    ("2", tweetEx1) (by decide) (by decide)

/-- Claim C2: the Summary Builder returns the total post count, the sums
of each raw counter, the mean of each ratio, the label-occurrence
distribution and the dominant cluster; on the empty assignment table it
returns total 0 and an empty distribution rather than failing. -/
theorem c2_summary_builder (rows : List ClusterRow) :
    (get_account_engagement_summary rows).total_tweets = rows.length ∧
    (get_account_engagement_summary rows).total_views =
      (rows.map (fun r => r.total_views)).sum ∧
    (get_account_engagement_summary rows).total_likes =
      (rows.map (fun r => r.total_likes)).sum ∧
    (get_account_engagement_summary rows).total_retweets =
      (rows.map (fun r => r.total_retweets)).sum ∧
    (get_account_engagement_summary rows).total_replies =
      (rows.map (fun r => r.total_replies)).sum ∧
    (get_account_engagement_summary rows).avg_likes_per_views =
      (if rows.length = 0 then 0
       else (rows.map (fun r => r.likes_per_views)).sum / rows.length) ∧
    (get_account_engagement_summary rows).avg_retweets_per_views =
      (if rows.length = 0 then 0
       else (rows.map (fun r => r.retweets_per_views)).sum / rows.length) ∧
    (get_account_engagement_summary rows).avg_replies_per_views =
      (if rows.length = 0 then 0
       else (rows.map (fun r => r.replies_per_views)).sum / rows.length) ∧
    (get_account_engagement_summary rows).cluster_distribution =
      (distinctLabels rows).map (fun l => (l, countLabel l rows)) ∧
    (get_account_engagement_summary rows).dominant_cluster =
      dominantOf ((distinctLabels rows).map (fun l => (l, countLabel l rows))) ∧
    get_account_engagement_summary [] =
      { total_tweets := 0, total_views := 0, total_likes := 0,
        total_retweets := 0, total_replies := 0, avg_likes_per_views := 0,
        avg_retweets_per_views := 0, avg_replies_per_views := 0,
        cluster_distribution := [], dominant_cluster := Option.none } :=
  ⟨rfl, rfl, rfl, rfl, rfl, rfl, rfl, rfl, rfl, rfl, by decide⟩

/-- Claim C3, counterexample: with the artifacts present on disk,
`predict_engagement_clusters` produces a cluster prediction even for the
empty mapping and for a mapping whose only tweet is skipped as invalid —
the feature table is never empty, so the distinct "nothing to analyze"
signal (a `None` result) is not produced for inputs with no valid
tweets. -/
theorem c3_counterexample :
    (predict_engagement_clusters demoDir freshPredictor []).1.isSome
        = true ∧
    (predict_engagement_clusters demoDir freshPredictor
        [("1", tweetAbcViews)]).1.isSome = true ∧
    (featuresRow [("1", tweetAbcViews)]).valid_tweets_count = 0 ∧
    (featuresRow []).valid_tweets_count = 0 := by
  decide

/-- Claim C3, amended: `predict_engagement_clusters` returns no result
exactly when the artifacts are not yet cached and at least one artifact
file is missing from disk; the empty-feature-table branch is unreachable
because the feature table always holds exactly one row, so an input with
no valid tweets still produces a cluster prediction (for the all-zero
feature row) instead of a distinct "nothing to analyze" signal. -/
theorem c3_amended_none_iff_missing_artifacts (dir : ModelDir)
    (p : Predictor) (tweets : List (String × TweetInfo)) :
    (predict_engagement_clusters dir p tweets).1 = Option.none ↔
      ((p.scaler.isNone || p.kmeans_model.isNone) = true ∧
        (dir.scaler_file.isNone || dir.kmeans_file.isNone) = true) := by
  rcases p with ⟨ps, pk⟩
  rcases dir with ⟨ds, dk⟩
  cases ps <;> cases pk <;> cases ds <;> cases dk <;>
    simp [predict_engagement_clusters, load_models, predictLoaded,
      calculate_engagement_features]

/-- Claim C3, witness: the amended statement instantiated at an empty
model directory and a fresh predictor. -/
theorem c3_witness :
    (predict_engagement_clusters emptyDir freshPredictor []).1 =
      Option.none :=
  (c3_amended_none_iff_missing_artifacts emptyDir freshPredictor []).mpr
    ⟨rfl, rfl⟩

/-- Claim C8: when the views total summed over the input is 0, the guarded
division is skipped, so `calculate_engagement_features` reports all three
ratios as 0 (never a division error or NaN) and a zero contributing
count. -/
theorem c8_zero_total_views_neutral (tweets : List (String × TweetInfo))
    (r : EngagementFeatures)
    (heq : calculate_engagement_features tweets = [r])
    (hv : r.total_views = 0) :
    r.likes_per_views = 0 ∧ r.retweets_per_views = 0 ∧
      r.replies_per_views = 0 ∧ r.valid_tweets_count = 0 := by
  have h2 : featuresRow tweets :: ([] : List EngagementFeatures) = r :: [] :=
    heq
  injection h2 with h3 _
  subst h3
  have hviews : (aggregateTotals tweets).views = 0 := by
    rw [← featuresRow_total_views]
    exact hv
  have hnotpos : ¬ (aggregateTotals tweets).views > 0 := by omega
  obtain ⟨hz1, hz2, hz3⟩ := featuresRow_ratios_zero tweets hnotpos
  refine ⟨hz1, hz2, hz3, ?_⟩
  rw [featuresRow_count]
  exact (aggregateTotals_inv tweets).2 hviews

/-- Claim C8, witness: the statement instantiated at the empty mapping,
whose views total is 0. -/
theorem c8_witness :
    (featuresRow []).likes_per_views = 0 ∧
      (featuresRow []).retweets_per_views = 0 ∧
      (featuresRow []).replies_per_views = 0 ∧
      (featuresRow []).valid_tweets_count = 0 :=
  c8_zero_total_views_neutral [] (featuresRow []) rfl (by decide)

/-- Claim C9: any call loads from disk at most once, and after a call that
returns a result the instance caches both artifacts: every further call on
that instance performs zero disk loads and leaves the instance
unchanged. -/
theorem c9_lazy_load_cached (dir : ModelDir) (p : Predictor)
    (tweets : List (String × TweetInfo)) :
    (predict_engagement_clusters dir p tweets).2.2 ≤ 1 ∧
    ((predict_engagement_clusters dir p tweets).1.isSome = true →
      ((predict_engagement_clusters dir p tweets).2.1.scaler.isSome
          = true ∧
       (predict_engagement_clusters dir p tweets).2.1.kmeans_model.isSome
          = true ∧
       ∀ (dir2 : ModelDir) (tweets2 : List (String × TweetInfo)),
         (predict_engagement_clusters dir2
             ((predict_engagement_clusters dir p tweets).2.1)
             tweets2).2.2 = 0 ∧
         (predict_engagement_clusters dir2
             ((predict_engagement_clusters dir p tweets).2.1)
             tweets2).2.1 =
           (predict_engagement_clusters dir p tweets).2.1)) := by
  have key : ∀ (q : Predictor), q.scaler.isSome = true →
      q.kmeans_model.isSome = true →
      ∀ (dir2 : ModelDir) (tweets2 : List (String × TweetInfo)),
        (predict_engagement_clusters dir2 q tweets2).2.2 = 0 ∧
        (predict_engagement_clusters dir2 q tweets2).2.1 = q := by
    intro q hs hk dir2 tweets2
    rw [predict_no_reload dir2 q tweets2 hs hk]
    exact ⟨rfl, rfl⟩
  by_cases hneed : (p.scaler.isNone || p.kmeans_model.isNone) = true
  · unfold predict_engagement_clusters
    rw [if_pos hneed]
    cases hload : load_models dir p with
    | mk ok p1 =>
      cases ok with
      | true =>
        obtain ⟨hs1, hk1⟩ := load_models_true dir p p1 hload
        refine ⟨by simp, fun _ => ⟨hs1, hk1, key p1 hs1 hk1⟩⟩
      | false =>
        refine ⟨by simp, fun hsome => ?_⟩
        simp at hsome
  · have hs : p.scaler.isSome = true := by
      rcases p with ⟨ps, pk⟩
      cases ps <;> cases pk <;> simp_all
    have hk : p.kmeans_model.isSome = true := by
      rcases p with ⟨ps, pk⟩
      cases ps <;> cases pk <;> simp_all
    rw [predict_no_reload dir p tweets hs hk]
    exact ⟨by simp, fun _ => ⟨hs, hk, key p hs hk⟩⟩

/-- Claim C9, witness: after a successful call on a fresh instance with
the demo artifacts, a further call performs zero disk loads. -/
theorem c9_witness :
    (predict_engagement_clusters emptyDir
        ((predict_engagement_clusters demoDir freshPredictor []).2.1)
        []).2.2 = 0 :=
  (((c9_lazy_load_cached demoDir freshPredictor []).2 (by decide)).2.2
    emptyDir []).1
